import Mathlib

/-!
Shallow embedding of `src/kernel/lib/magenta/io_port_dispatcher.cpp`:
the `IOP_Packet` lifecycle and the `IOPortDispatcher` (I/O port) with its
packet FIFO, observer set, "no more clients" flag and wake event.

External collaborators that are not part of the given sources
(the error-code header, `magenta_copy_from_user` / `copy_to_user`,
the state tracker, `IOPortObserver`'s state field) are modelled at their
interface boundary; each such definition says so in its doc comment.
-/

namespace Magenta

/-!
Status codes. The error-code header (`err.h`) is outside the given sources;
the concrete numeric values below are modelled from the spec's error taxonomy.
Every theorem uses only the identity of these constants and their
distinctness from `NO_ERROR`, never the particular magnitudes.
-/

def NO_ERROR : Int := 0

def ERR_NO_MEMORY : Int := -5

def ERR_NOT_ENOUGH_BUFFER : Int := -9

def ERR_NOT_SUPPORTED : Int := -24

def ERR_NOT_AVAILABLE : Int := -25

def ERR_INVALID_ARGS : Int := -8

def ERR_BAD_HANDLE : Int := -42

/-- The C++ implicit conversion from an integer to `bool`:
nonzero becomes `true`, zero becomes `false`.  `IOP_Packet::CopyToUser`
is declared with return type `bool`, so its `return ERR_NOT_ENOUGH_BUFFER;`
goes through this conversion. -/
def intToBool (i : Int) : Bool := i != 0

/-- Modelled from the spec: the packet header tag for user-submitted packets
(`MX_IO_PORT_PKT_TYPE_USER`; the header definition is outside the given
sources).  Only its identity matters. -/
def MX_IO_PORT_PKT_TYPE_USER : Nat := 2

/-- An `IOP_Packet`: the header-plus-payload envelope.  The C++ object stores
`data_size` and is followed in the same allocation by `data_size` payload
bytes; the payload's leading bytes are the `mx_packet_header_t`, whose
`type` field we model as payload position 0 (the header layout itself is
outside the given sources). -/
structure IOP_Packet where
  data_size : Nat
  payload : List Nat
  deriving Repr, DecidableEq

/-- Heap state: the number of live allocations made by `IOP_Packet::Alloc`
and not yet released by `IOP_Packet::Delete`.  Used to express
ownership/leak properties of the packet lifecycle. -/
structure AllocState where
  live : Nat
  deriving Repr, DecidableEq

/-- `IOP_Packet::Alloc`: one combined allocation of header + `size` payload
bytes.  `allocOk` models the `AllocChecker` outcome; on failure nothing is
allocated and no packet is returned. -/
def IOP_Packet.Alloc (h : AllocState) (allocOk : Bool) (size : Nat) :
    Option IOP_Packet × AllocState :=
  if allocOk then
    (some { data_size := size, payload := List.replicate size 0 }, { live := h.live + 1 })
  else
    (none, h)

/-- `IOP_Packet::Delete`: releases the single combined allocation of a packet. -/
def IOP_Packet.Delete (_packet : IOP_Packet) (h : AllocState) : AllocState :=
  { live := h.live - 1 }

/-- `IOP_Packet::Make`: allocate and fill the payload from a kernel-owned
source (`memcpy`). -/
def IOP_Packet.Make (h : AllocState) (allocOk : Bool) (data : List Nat) (size : Nat) :
    Option IOP_Packet × AllocState :=
  match IOP_Packet.Alloc h allocOk size with
  | (none, h2) => (none, h2)
  | (some pk, h2) => (some { pk with payload := data.take size }, h2)

/-- Write the user-submitted tag into the header at the start of the payload
(`header->type = MX_IO_PORT_PKT_TYPE_USER`). -/
def setUserType (payload : List Nat) : List Nat :=
  payload.set 0 MX_IO_PORT_PKT_TYPE_USER

/-- `IOP_Packet::MakeFromUser`: allocate, then populate the payload by a
validated copy from a user pointer (`magenta_copy_from_user`, outside the
given sources, modelled by its reported status `copyStatus` and the bytes
`data` it would deliver), then force the header tag to user-submitted.
On copy failure the function returns no packet; note that it does not
release the allocation made by `Alloc` on that path. -/
def IOP_Packet.MakeFromUser (h : AllocState) (allocOk : Bool) (data : List Nat)
    (size : Nat) (copyStatus : Int) : Option IOP_Packet × AllocState :=
  match IOP_Packet.Alloc h allocOk size with
  | (none, h2) => (none, h2)
  | (some pk, h2) =>
    let copied := if copyStatus = NO_ERROR then data.take size else pk.payload
    let pk2 : IOP_Packet := { pk with payload := setUserType copied }
    if copyStatus = NO_ERROR then (some pk2, h2) else (none, h2)

/-- Result of `IOP_Packet::CopyToUser`: the `bool` return value, the final
value of the in/out `*size` parameter, and the final contents of the
caller's destination buffer. -/
structure CopyToUserResult where
  ret : Bool
  size_out : Nat
  dest : List Nat
  deriving Repr, DecidableEq

/-- Modelled from the spec: `copy_to_user` (raw copy-out across the
user/kernel boundary, outside the given sources).  `copyOk` models whether
the copy-out succeeds; on success the first `n` source bytes overwrite the
start of the destination, on failure we leave the destination unchanged
(the claims never depend on the failure contents). -/
def copy_to_user (dest : List Nat) (src : List Nat) (n : Nat) (copyOk : Bool) :
    Int × List Nat :=
  if copyOk then (NO_ERROR, src.take n ++ dest.drop n) else (ERR_INVALID_ARGS, dest)

/-- `IOP_Packet::CopyToUser`.  Faithful to the source's `bool` return type:
the small-buffer branch executes `return ERR_NOT_ENOUGH_BUFFER;`, which the
C++ implicit conversion turns into `true`; the copy branch returns
`copy_to_user(...) == NO_ERROR`.  `size_in` is the caller's buffer
capacity (the input value of `*size`). -/
def IOP_Packet.CopyToUser (p : IOP_Packet) (dest : List Nat) (size_in : Nat)
    (copyOk : Bool) : CopyToUserResult :=
  if size_in < p.data_size then
    { ret := intToBool ERR_NOT_ENOUGH_BUFFER, size_out := size_in, dest := dest }
  else
    let r := copy_to_user dest p.payload p.data_size copyOk
    { ret := r.1 == NO_ERROR, size_out := p.data_size, dest := r.2 }

/-- The tri-state observer lifecycle flag
(`IOPortObserver::{NEW, UNBOUND, CANCELLED}`). -/
inductive ObsState where
  | NEW
  | UNBOUND
  | CANCELLED
  deriving Repr, DecidableEq

/-- An `IOPortObserver`: its watched handle, signal mask of interest,
caller-chosen key and lifecycle state.  `id` models C++ pointer identity,
used by the intrusive list `erase`. -/
structure IOPortObserver where
  handle : Nat
  signals : Nat
  key : Nat
  state : ObsState
  id : Nat
  deriving Repr, DecidableEq

/-- Modelled from the spec: `IOPortObserver::SetState`, the single atomic
compare-and-set on the observer's state field (the observer's own source
file is not among the given sources; the spec describes the transition as
"a single atomic compare-and-swap ... so that exactly one of the two paths
proceeds past the guard and the other is a no-op").  Returns the previous
state; the write happens only when the previous state was `NEW`. -/
def IOPortObserver.SetState (ob : IOPortObserver) (target : ObsState) :
    ObsState × IOPortObserver :=
  if ob.state = ObsState.NEW then (ObsState.NEW, { ob with state := target })
  else (ob.state, ob)

/-- The `IOPortDispatcher` state: options, the "no more clients" flag, the
packet FIFO (head = front), the observer set, and the signaled state of the
autounsignal wake event `event_`.  The constructor initializes
`no_clients_` to `false` and the event to unsignaled. -/
structure IOPortDispatcher where
  options_ : Nat
  no_clients_ : Bool
  packets_ : List IOP_Packet
  observers_ : List IOPortObserver
  event_ : Bool
  deriving Repr, DecidableEq

/-- The `IOPortDispatcher` constructor: `no_clients_(false)`, empty queue
and observer set, `event_init(&event_, false, EVENT_FLAG_AUTOUNSIGNAL)`. -/
def IOPortDispatcher.initState (options : Nat) : IOPortDispatcher :=
  { options_ := options, no_clients_ := false, packets_ := [], observers_ := [],
    event_ := false }

/-- `IOPortDispatcher::FreePackets_NoLock`: pop and `IOP_Packet::Delete`
every queued packet. -/
def IOPortDispatcher.FreePackets_NoLock : List IOP_Packet → List IOP_Packet
  | [] => []
  | _ :: rest => IOPortDispatcher.FreePackets_NoLock rest

/-- `IOPortDispatcher::on_zero_handles` (the teardown hook): under the lock,
set `no_clients_` and free all queued packets.  It does not touch
`event_`. -/
def IOPortDispatcher.on_zero_handles (s : IOPortDispatcher) : IOPortDispatcher :=
  { s with no_clients_ := true,
           packets_ := IOPortDispatcher.FreePackets_NoLock s.packets_ }

/-- Result of `IOPortDispatcher::Queue`: the returned status, the port state
after the call, and whether `Queue` itself invoked `IOP_Packet::Delete` on
the argument packet on the failure path. -/
structure QueueResult where
  status : Int
  port : IOPortDispatcher
  deletedPacket : Bool
  deriving Repr, DecidableEq

/-- `IOPortDispatcher::Queue`: under the lock, if `no_clients_` is set the
status becomes `ERR_NOT_AVAILABLE`; otherwise the packet is appended to the
tail of the FIFO and `event_signal_etc` signals the wake event.  After the
lock is released, a non-`NO_ERROR` status makes `Queue` call
`IOP_Packet::Delete(packet)` before returning.  (The `thread_yield` after a
nonzero wake count is a scheduling hint with no effect on the state.) -/
def IOPortDispatcher.Queue (s : IOPortDispatcher) (packet : IOP_Packet) : QueueResult :=
  if s.no_clients_ then
    { status := ERR_NOT_AVAILABLE, port := s, deletedPacket := true }
  else
    { status := NO_ERROR,
      port := { s with packets_ := s.packets_ ++ [packet], event_ := true },
      deletedPacket := false }

/-- Outcome of `IOPortDispatcher::Wait` in the sequential model:
either a packet is popped and delivered with `NO_ERROR` (`got`), or the
wait primitive reported an error that `Wait` returns immediately (`err`),
or the thread is still blocked in `event_wait_timeout` with no further
wake outcome available (`blocked`). -/
inductive WaitResult where
  | got (p : IOP_Packet) (s : IOPortDispatcher)
  | err (st : Int)
  | blocked
  deriving Repr, DecidableEq

/-- The check-block-recheck loop of `Wait` once the queue has been found
empty: `evs` is the sequence of statuses returned by successive
`event_wait_timeout(&event_, INFINITE_TIME, true)` calls.  A non-`NO_ERROR`
status is returned immediately; a `NO_ERROR` wake re-checks the (in this
sequential model unchanged, hence still empty) queue and waits again.  A
pending autounsignal signal only inserts one extra `NO_ERROR` wakeup whose
re-check proceeds identically, so it is folded into `evs`. -/
def waitLoop : List Int → WaitResult
  | [] => WaitResult.blocked
  | e :: evs => if e = NO_ERROR then waitLoop evs else WaitResult.err e

/-- `IOPortDispatcher::Wait`: under the lock, if the queue is non-empty, pop
the head packet and return `NO_ERROR`; otherwise block on the wake event,
whose successive outcomes are drawn from `evs`. -/
def IOPortDispatcher.Wait (s : IOPortDispatcher) (evs : List Int) : WaitResult :=
  match s.packets_ with
  | p :: rest => WaitResult.got p { s with packets_ := rest }
  | [] => waitLoop evs

/-- Intrusive-list `erase`: remove the (unique) node with the given identity;
removing the first occurrence models erasing exactly that node. -/
def eraseObserver : List IOPortObserver → Nat → List IOPortObserver
  | [], _ => []
  | ob :: rest, i => if ob.id = i then rest else ob :: eraseObserver rest i

/-- `IOPortDispatcher::CancelObserver`: under the lock, erase the observer
from the port's observer set, then `delete` it. -/
def IOPortDispatcher.CancelObserver (s : IOPortDispatcher) (ob : IOPortObserver) :
    IOPortDispatcher :=
  { s with observers_ := eraseObserver s.observers_ ob.id }

/-- Result of `IOPortDispatcher::Bind`: the returned status, the port state
after the call, and whether the freshly allocated observer was destroyed
again on the failure path. -/
structure BindResult where
  status : Int
  port : IOPortDispatcher
  observerDestroyed : Bool
  deriving Repr, DecidableEq

/-- `IOPortDispatcher::Bind`.  `hasTracker` and `canWait` model
`handle->dispatcher()->get_state_tracker()` being non-null and
`state_tracker->is_waitable()`; `allocOk` the `AllocChecker` outcome for
the observer; `freshId` the new observer's identity; `addRes` the status
reported by the external `state_tracker->AddObserver(observer)`.  On an
`AddObserver` failure the path runs `CancelObserver(observer)` and
propagates the failure. -/
def IOPortDispatcher.Bind (s : IOPortDispatcher) (hasTracker canWait allocOk : Bool)
    (handle : Nat) (signals : Nat) (key : Nat) (freshId : Nat) (addRes : Int) :
    BindResult :=
  if !hasTracker || !canWait then
    { status := ERR_NOT_SUPPORTED, port := s, observerDestroyed := false }
  else if !allocOk then
    { status := ERR_NO_MEMORY, port := s, observerDestroyed := false }
  else
    let ob : IOPortObserver :=
      { handle := handle, signals := signals, key := key, state := ObsState.NEW,
        id := freshId }
    let s1 := { s with observers_ := ob :: s.observers_ }
    if addRes ≠ NO_ERROR then
      { status := addRes, port := IOPortDispatcher.CancelObserver s1 ob,
        observerDestroyed := true }
    else
      { status := NO_ERROR, port := s1, observerDestroyed := false }

/-- `observers_.find_if`: the first observer matching both handle and key. -/
def findObserver : List IOPortObserver → Nat → Nat → Option IOPortObserver
  | [], _, _ => none
  | ob :: rest, h, k =>
    if ob.handle = h ∧ ob.key = k then some ob else findObserver rest h k

/-- Result of `IOPortDispatcher::Unbind`: the returned status, the port state
after the call, whether `RemoveObserver` was invoked on the watched
object's state tracker, and whether the observer was destroyed. -/
structure UnbindResult where
  status : Int
  port : IOPortDispatcher
  removedFromTracker : Bool
  observerDestroyed : Bool
  deriving Repr, DecidableEq

/-- `IOPortDispatcher::Unbind`: find the observer matching handle and key
(`ERR_BAD_HANDLE` if none); attempt the atomic `SetState(UNBOUND)`; if the
previous state was not `NEW` a concurrent cancellation already claimed the
observer and `Unbind` returns `NO_ERROR` touching nothing further;
otherwise erase it from the observer set, deregister it from the state
tracker (`RemoveObserver`) and `delete` it. -/
def IOPortDispatcher.Unbind (s : IOPortDispatcher) (handle : Nat) (key : Nat) :
    UnbindResult :=
  match findObserver s.observers_ handle key with
  | none =>
    { status := ERR_BAD_HANDLE, port := s, removedFromTracker := false,
      observerDestroyed := false }
  | some ob =>
    let r := ob.SetState ObsState.UNBOUND
    if r.1 ≠ ObsState.NEW then
      { status := NO_ERROR, port := s, removedFromTracker := false,
        observerDestroyed := false }
    else
      { status := NO_ERROR,
        port := { s with observers_ := eraseObserver s.observers_ ob.id },
        removedFromTracker := true, observerDestroyed := true }

/-- A sequence of `Queue` calls with no intervening `Wait`: the list of
returned statuses and the resulting port state. -/
def queueAll : IOPortDispatcher → List IOP_Packet → List Int × IOPortDispatcher
  | s, [] => ([], s)
  | s, p :: ps =>
    let r := IOPortDispatcher.Queue s p
    let rest := queueAll r.port ps
    (r.status :: rest.1, rest.2)

/-- `n` consecutive `Wait` calls, collecting the delivered packets in order;
stops early if a `Wait` does not deliver a packet. -/
def drainN : Nat → IOPortDispatcher → List IOP_Packet × IOPortDispatcher
  | 0, s => ([], s)
  | n + 1, s =>
    match IOPortDispatcher.Wait s [] with
    | WaitResult.got p s2 =>
      let rest := drainN n s2
      (p :: rest.1, rest.2)
    | _ => ([], s)

/-- One invocation of a port operation, as a transition between port
states. -/
inductive Step : IOPortDispatcher → IOPortDispatcher → Prop where
  | queue (s : IOPortDispatcher) (p : IOP_Packet) :
      Step s (IOPortDispatcher.Queue s p).port
  | wait (s : IOPortDispatcher) (evs : List Int) (p : IOP_Packet)
      (s2 : IOPortDispatcher)
      (h : IOPortDispatcher.Wait s evs = WaitResult.got p s2) : Step s s2
  | zero_handles (s : IOPortDispatcher) :
      Step s (IOPortDispatcher.on_zero_handles s)
  | bind (s : IOPortDispatcher) (hasTracker canWait allocOk : Bool)
      (handle signals key freshId : Nat) (addRes : Int) :
      Step s (IOPortDispatcher.Bind s hasTracker canWait allocOk handle signals key
        freshId addRes).port
  | unbind (s : IOPortDispatcher) (handle key : Nat) :
      Step s (IOPortDispatcher.Unbind s handle key).port
  | cancel (s : IOPortDispatcher) (ob : IOPortObserver) :
      Step s (IOPortDispatcher.CancelObserver s ob)

/-- Port states reachable from a freshly constructed port by any sequence of
operations. -/
def Reachable (s : IOPortDispatcher) : Prop :=
  ∃ options, Relation.ReflTransGen Step (IOPortDispatcher.initState options) s

theorem FreePackets_NoLock_eq_nil (l : List IOP_Packet) :
    IOPortDispatcher.FreePackets_NoLock l = [] := by
  induction l with
  | nil => rfl
  | cons p rest ih => simpa [IOPortDispatcher.FreePackets_NoLock] using ih

theorem waitLoop_ne_got (evs : List Int) (p : IOP_Packet) (s2 : IOPortDispatcher) :
    waitLoop evs ≠ WaitResult.got p s2 := by
  induction evs with
  | nil => simp [waitLoop]
  | cons e evs ih =>
    simp only [waitLoop]
    split
    · exact ih
    · simp

theorem Wait_got_inv (s : IOPortDispatcher) (evs : List Int) (p : IOP_Packet)
    (s2 : IOPortDispatcher) (h : IOPortDispatcher.Wait s evs = WaitResult.got p s2) :
    s.packets_ = p :: s2.packets_ ∧ s2.no_clients_ = s.no_clients_ := by
  unfold IOPortDispatcher.Wait at h
  cases hp : s.packets_ with
  | nil =>
    rw [hp] at h
    exact absurd h (waitLoop_ne_got evs p s2)
  | cons q rest =>
    rw [hp] at h
    cases h
    exact ⟨rfl, rfl⟩

theorem Queue_port_no_clients (s : IOPortDispatcher) (p : IOP_Packet) :
    (IOPortDispatcher.Queue s p).port.no_clients_ = s.no_clients_ := by
  unfold IOPortDispatcher.Queue
  split
  · rfl
  · rfl

theorem Bind_port_fields (s : IOPortDispatcher) (hasTracker canWait allocOk : Bool)
    (handle signals key freshId : Nat) (addRes : Int) :
    (IOPortDispatcher.Bind s hasTracker canWait allocOk handle signals key freshId
      addRes).port.packets_ = s.packets_ ∧
    (IOPortDispatcher.Bind s hasTracker canWait allocOk handle signals key freshId
      addRes).port.no_clients_ = s.no_clients_ := by
  unfold IOPortDispatcher.Bind IOPortDispatcher.CancelObserver
  split
  · exact ⟨rfl, rfl⟩
  · split
    · exact ⟨rfl, rfl⟩
    · split
      · exact ⟨rfl, rfl⟩
      · exact ⟨rfl, rfl⟩

theorem Unbind_port_fields (s : IOPortDispatcher) (handle key : Nat) :
    (IOPortDispatcher.Unbind s handle key).port.packets_ = s.packets_ ∧
    (IOPortDispatcher.Unbind s handle key).port.no_clients_ = s.no_clients_ := by
  unfold IOPortDispatcher.Unbind
  split
  · exact ⟨rfl, rfl⟩
  · dsimp only
    split
    · exact ⟨rfl, rfl⟩
    · exact ⟨rfl, rfl⟩

/-- Every operation preserves the "no more clients" flag once it is set, and
keeps the queue empty if it was empty with the flag set. -/
theorem step_preserves_terminal (s s2 : IOPortDispatcher) (hstep : Step s s2)
    (hnc : s.no_clients_ = true) (hemp : s.packets_ = []) :
    s2.no_clients_ = true ∧ s2.packets_ = [] := by
  cases hstep with
  | queue p =>
    simp [IOPortDispatcher.Queue, hnc, hemp]
  | wait evs p s2 h =>
    rcases Wait_got_inv s evs p s2 h with ⟨hp, _⟩
    rw [hemp] at hp
    exact absurd hp (by simp)
  | zero_handles =>
    exact ⟨rfl, FreePackets_NoLock_eq_nil _⟩
  | bind hasTracker canWait allocOk handle signals key freshId addRes =>
    rcases Bind_port_fields s hasTracker canWait allocOk handle signals key freshId
      addRes with ⟨h1, h2⟩
    exact ⟨h2.trans hnc, h1.trans hemp⟩
  | unbind handle key =>
    rcases Unbind_port_fields s handle key with ⟨h1, h2⟩
    exact ⟨h2.trans hnc, h1.trans hemp⟩
  | cancel ob =>
    exact ⟨hnc, hemp⟩

/-- A step out of a state whose flag is still clear can only reach a state
where the flag implies an empty queue (the only flag-setting operation is
the teardown hook, which also drains the queue). -/
theorem step_establishes_terminal (s s2 : IOPortDispatcher) (hstep : Step s s2)
    (hfalse : s.no_clients_ = false) :
    s2.no_clients_ = true → s2.packets_ = [] := by
  intro hc
  cases hstep with
  | queue p =>
    rw [Queue_port_no_clients s p, hfalse] at hc
    cases hc
  | wait evs p s2 h =>
    rcases Wait_got_inv s evs p s2 h with ⟨_, h2⟩
    rw [hc, hfalse] at h2
    cases h2
  | zero_handles =>
    exact FreePackets_NoLock_eq_nil _
  | bind hasTracker canWait allocOk handle signals key freshId addRes =>
    rcases Bind_port_fields s hasTracker canWait allocOk handle signals key
      freshId addRes with ⟨_, h2⟩
    rw [hc, hfalse] at h2
    cases h2
  | unbind handle key =>
    rcases Unbind_port_fields s handle key with ⟨_, h2⟩
    rw [hc, hfalse] at h2
    cases h2
  | cancel ob =>
    have h2 : (IOPortDispatcher.CancelObserver s ob).no_clients_ = s.no_clients_ := rfl
    rw [hc, hfalse] at h2
    cases h2

/-- The terminal-state invariant: in every reachable state, a set
"no more clients" flag implies an empty packet queue. -/
theorem reachable_no_clients_empty (s : IOPortDispatcher) (hr : Reachable s) :
    s.no_clients_ = true → s.packets_ = [] := by
  rcases hr with ⟨options, h⟩
  induction h with
  | refl => intro h; cases h
  | tail _hab hbc ih =>
    rename_i b c
    intro hc
    cases hstep : b.no_clients_ with
    | true => exact (step_preserves_terminal b c hbc hstep (ih hstep)).2
    | false => exact step_establishes_terminal b c hbc hstep hc

theorem queueAll_spec (ps : List IOP_Packet) :
    ∀ s : IOPortDispatcher, s.no_clients_ = false →
    (queueAll s ps).1 = List.replicate ps.length NO_ERROR ∧
    (queueAll s ps).2.packets_ = s.packets_ ++ ps ∧
    (queueAll s ps).2.no_clients_ = false := by
  induction ps with
  | nil => intro s hnc; exact ⟨rfl, by simp [queueAll], hnc⟩
  | cons p ps ih =>
    intro s hnc
    have hq : IOPortDispatcher.Queue s p =
        { status := NO_ERROR,
          port := { s with packets_ := s.packets_ ++ [p], event_ := true },
          deletedPacket := false } := by
      simp [IOPortDispatcher.Queue, hnc]
    rcases ih { s with packets_ := s.packets_ ++ [p], event_ := true } hnc with
      ⟨h1, h2, h3⟩
    refine ⟨?_, ?_, ?_⟩ <;> simp only [queueAll, hq] <;>
      simp [h1, h2, h3, List.replicate_succ]

theorem drainN_spec (l : List IOP_Packet) :
    ∀ s : IOPortDispatcher, s.packets_ = l →
    (drainN l.length s).1 = l ∧ (drainN l.length s).2.packets_ = [] := by
  induction l with
  | nil => intro s h; exact ⟨rfl, h⟩
  | cons p rest ih =>
    intro s h
    have hw : IOPortDispatcher.Wait s [] =
        WaitResult.got p { s with packets_ := rest } := by
      unfold IOPortDispatcher.Wait
      rw [h]
    rcases ih { s with packets_ := rest } rfl with ⟨h1, h2⟩
    refine ⟨?_, ?_⟩ <;> simp only [List.length_cons, drainN, hw] <;> simp [h1, h2]

/-- Claim C1 (counterexample): the claim states that after a
"no more clients" rejection the caller remains responsible for destroying
the packet and `Queue` itself does not destroy it; at this concrete input
the failure path of `Queue` does invoke `IOP_Packet::Delete` on the
packet. -/
theorem C1_counterexample :
    ¬ ((IOPortDispatcher.Queue ⟨0, true, [], [], false⟩ ⟨0, []⟩).deletedPacket
        = false) := by
  decide

/-- Claim C1 (amended): when the "no more clients" flag is set, `Queue`
returns the not-available status and leaves the entire port state — in
particular the packet queue — unchanged, but it destroys the rejected
packet itself (`IOP_Packet::Delete` runs inside `Queue`), so ownership
does not stay with the caller and the caller must not destroy the packet
again. -/
theorem C1_queue_rejects_unchanged_and_deletes (s : IOPortDispatcher)
    (p : IOP_Packet) (h : s.no_clients_ = true) :
    (IOPortDispatcher.Queue s p).status = ERR_NOT_AVAILABLE ∧
    (IOPortDispatcher.Queue s p).port = s ∧
    (IOPortDispatcher.Queue s p).deletedPacket = true := by
  simp [IOPortDispatcher.Queue, h]

/-- Claim C1 (witness): the amended claim at a concrete port with the flag
set and a concrete packet. -/
theorem C1_queue_rejects_unchanged_and_deletes_witness :
    (⟨0, true, [], [], false⟩ : IOPortDispatcher).no_clients_ = true ∧
    ((IOPortDispatcher.Queue ⟨0, true, [], [], false⟩ ⟨1, [3]⟩).status
        = ERR_NOT_AVAILABLE ∧
      (IOPortDispatcher.Queue ⟨0, true, [], [], false⟩ ⟨1, [3]⟩).port
        = ⟨0, true, [], [], false⟩ ∧
      (IOPortDispatcher.Queue ⟨0, true, [], [], false⟩ ⟨1, [3]⟩).deletedPacket
        = true) :=
  ⟨rfl, C1_queue_rejects_unchanged_and_deletes ⟨0, true, [], [], false⟩ ⟨1, [3]⟩ rfl⟩

/-- Claim C2: for every packet rejected by `Queue` because the
"no more clients" flag is set, `Queue` itself invokes `IOP_Packet::Delete`
on the packet before returning the not-available status (so a caller that
destroyed the packet again after this failure would be destroying it a
second time). -/
theorem C2_queue_deletes_rejected_packet (s : IOPortDispatcher) (p : IOP_Packet)
    (h : s.no_clients_ = true) :
    (IOPortDispatcher.Queue s p).status = ERR_NOT_AVAILABLE ∧
    (IOPortDispatcher.Queue s p).deletedPacket = true := by
  simp [IOPortDispatcher.Queue, h]

/-- Claim C2 (witness): the rejected-packet deletion at a concrete port and
packet. -/
theorem C2_queue_deletes_rejected_packet_witness :
    (⟨7, true, [], [], true⟩ : IOPortDispatcher).no_clients_ = true ∧
    ((IOPortDispatcher.Queue ⟨7, true, [], [], true⟩ ⟨1, [5]⟩).status
        = ERR_NOT_AVAILABLE ∧
      (IOPortDispatcher.Queue ⟨7, true, [], [], true⟩ ⟨1, [5]⟩).deletedPacket
        = true) :=
  ⟨rfl, C2_queue_deletes_rejected_packet ⟨7, true, [], [], true⟩ ⟨1, [5]⟩ rfl⟩

/-- Claim C3 (code bug, evaluated at the failing input): `CopyToUser` is
declared with return type `bool`, so the small-buffer branch's
`return ERR_NOT_ENOUGH_BUFFER;` is converted to `true` — the very value
the successful-copy branch returns — and the "buffer too small" failure is
not a status distinct from success.  Concretely, against a packet of
payload length 1: with capacity 0 the call returns `true` while copying
nothing (destination and size untouched), and with capacity 1 and a
successful copy-out it also returns `true`. -/
theorem C3_small_buffer_status_not_distinct :
    IOP_Packet.CopyToUser ⟨1, [7]⟩ [0] 0 true
      = { ret := true, size_out := 0, dest := [0] } ∧
    IOP_Packet.CopyToUser ⟨1, [7]⟩ [0] 1 true
      = { ret := true, size_out := 1, dest := [7] } := by
  decide

/-- Claim C4 (code bug, evaluated at the failing input): when the validated
user copy fails after a successful allocation, `MakeFromUser` returns no
packet but never runs `IOP_Packet::Delete` on the block obtained from
`Alloc`: the live-allocation count stays at 1, so the allocation is leaked
rather than released. -/
theorem C4_failed_user_copy_leaks_allocation :
    (IOP_Packet.MakeFromUser ⟨0⟩ true [1, 2, 3] 3 ERR_INVALID_ARGS).1 = none ∧
    (IOP_Packet.MakeFromUser ⟨0⟩ true [1, 2, 3] 3 ERR_INVALID_ARGS).2.live = 1 := by
  decide

/-- Claim C5: starting from a live port with an empty queue, a sequence of
`Queue(p1)...Queue(pn)` calls all succeed (`NO_ERROR` each), and `n`
consecutive `Wait` calls then deliver exactly `p1..pn` in that order —
strict FIFO: `Queue` appends at the tail, `Wait` pops the head. -/
theorem C5_fifo_order (s : IOPortDispatcher) (ps : List IOP_Packet)
    (hnc : s.no_clients_ = false) (hemp : s.packets_ = []) :
    (queueAll s ps).1 = List.replicate ps.length NO_ERROR ∧
    (drainN ps.length (queueAll s ps).2).1 = ps := by
  rcases queueAll_spec ps s hnc with ⟨h1, h2, _⟩
  rw [hemp] at h2
  simp only [List.nil_append] at h2
  exact ⟨h1, (drainN_spec ps _ h2).1⟩

/-- Claim C5 (witness): FIFO delivery for two concrete packets queued on a
fresh port. -/
theorem C5_fifo_order_witness :
    (IOPortDispatcher.initState 0).no_clients_ = false ∧
    (IOPortDispatcher.initState 0).packets_ = [] ∧
    ((queueAll (IOPortDispatcher.initState 0) [⟨1, [7]⟩, ⟨1, [8]⟩]).1
        = List.replicate 2 NO_ERROR ∧
      (drainN 2 (queueAll (IOPortDispatcher.initState 0) [⟨1, [7]⟩, ⟨1, [8]⟩]).2).1
        = [⟨1, [7]⟩, ⟨1, [8]⟩]) :=
  ⟨rfl, rfl,
    C5_fifo_order (IOPortDispatcher.initState 0) [⟨1, [7]⟩, ⟨1, [8]⟩] rfl rfl⟩

/-- Claim C6: in every reachable port state with the "no more clients" flag
set the packet queue is empty, and every operation taken from such a state
preserves both the flag and the emptiness of the queue (the teardown hook
establishes the state by draining the queue; `Queue` thereafter fails
without mutating it), so the queue stays empty forever. -/
theorem C6_terminal_state_invariant (s : IOPortDispatcher) (hr : Reachable s)
    (hnc : s.no_clients_ = true) :
    s.packets_ = [] ∧
    ∀ s2, Step s s2 → s2.no_clients_ = true ∧ s2.packets_ = [] := by
  have hemp := reachable_no_clients_empty s hr hnc
  exact ⟨hemp, fun s2 hstep => step_preserves_terminal s s2 hstep hnc hemp⟩

/-- Claim C6 (witness): the invariant instantiated at the concrete reachable
state obtained by tearing down a fresh port, and at the `Queue` step taken
from it. -/
theorem C6_terminal_state_invariant_witness :
    (IOPortDispatcher.on_zero_handles (IOPortDispatcher.initState 0)).packets_
      = [] ∧
    (IOPortDispatcher.Queue
        (IOPortDispatcher.on_zero_handles (IOPortDispatcher.initState 0))
        ⟨0, []⟩).port.no_clients_ = true ∧
    (IOPortDispatcher.Queue
        (IOPortDispatcher.on_zero_handles (IOPortDispatcher.initState 0))
        ⟨0, []⟩).port.packets_ = [] := by
  have h := C6_terminal_state_invariant
    (IOPortDispatcher.on_zero_handles (IOPortDispatcher.initState 0))
    ⟨0, Relation.ReflTransGen.single
      (Step.zero_handles (IOPortDispatcher.initState 0))⟩ rfl
  rcases h with ⟨h1, h2⟩
  have h3 := h2 _ (Step.queue _ ⟨0, []⟩)
  exact ⟨h1, h3.1, h3.2⟩

/-- Claim C7 (code bug, evaluated on the teardown path): the teardown hook
`on_zero_handles` leaves the wake event exactly as it found it — it never
signals the wake primitive and never forces a re-check — and a `Wait`
against the torn-down port that receives no wake-primitive outcome remains
blocked rather than receiving an immediate error. -/
theorem C7_teardown_does_not_unblock_waiters :
    (∀ s : IOPortDispatcher,
      (IOPortDispatcher.on_zero_handles s).event_ = s.event_) ∧
    IOPortDispatcher.Wait
      (IOPortDispatcher.on_zero_handles (IOPortDispatcher.initState 0)) []
      = WaitResult.blocked :=
  ⟨fun _ => rfl, rfl⟩

/-- Claim C8: `Bind` on a handle whose object exposes no waitable signal
source fails with `ERR_NOT_SUPPORTED` and changes nothing; and when the
signal-source registration (`AddObserver`) fails after the port-side
registration succeeded, `Bind` removes the observer from the port's
observer set again, destroys it, and propagates the registration failure,
leaving the port exactly as it was — no half-registered observer behind. -/
theorem C8_bind_error_paths (s : IOPortDispatcher)
    (handle signals key freshId : Nat) (addRes : Int) :
    (∀ hasTracker canWait allocOk : Bool,
      hasTracker = false ∨ canWait = false →
      IOPortDispatcher.Bind s hasTracker canWait allocOk handle signals key
          freshId addRes
        = { status := ERR_NOT_SUPPORTED, port := s, observerDestroyed := false }) ∧
    (addRes ≠ NO_ERROR →
      IOPortDispatcher.Bind s true true true handle signals key freshId addRes
        = { status := addRes, port := s, observerDestroyed := true }) := by
  constructor
  · rintro hasTracker canWait allocOk (h | h) <;> simp [IOPortDispatcher.Bind, h]
  · intro h
    rcases s with ⟨o, nc, pk, obs, ev⟩
    simp [IOPortDispatcher.Bind, IOPortDispatcher.CancelObserver, eraseObserver, h]

/-- Claim C8 (witness): the not-supported rejection and the registration
failure rollback at a concrete port. -/
theorem C8_bind_error_paths_witness :
    (IOPortDispatcher.Bind (IOPortDispatcher.initState 3) false true true 1 2 3 4
        ERR_NO_MEMORY
      = { status := ERR_NOT_SUPPORTED, port := IOPortDispatcher.initState 3,
          observerDestroyed := false }) ∧
    (IOPortDispatcher.Bind (IOPortDispatcher.initState 3) true true true 1 2 3 4
        ERR_NO_MEMORY
      = { status := ERR_NO_MEMORY, port := IOPortDispatcher.initState 3,
          observerDestroyed := true }) := by
  have h := C8_bind_error_paths (IOPortDispatcher.initState 3) 1 2 3 4 ERR_NO_MEMORY
  exact ⟨h.1 false true true (Or.inl rfl), h.2 (by decide)⟩

/-- Claim C9: `Unbind` with no observer matching both handle and key fails
with `ERR_BAD_HANDLE`; on a matching observer already past `NEW` (a
concurrent cancellation claimed it) it removes nothing, touches the
observer no further, and reports success; and only when it wins the
NEW-to-UNBOUND transition does it erase the observer from the set,
deregister it from the signal source, and destroy it. -/
theorem C9_unbind_paths (s : IOPortDispatcher) (handle key : Nat) :
    (findObserver s.observers_ handle key = none →
      IOPortDispatcher.Unbind s handle key
        = { status := ERR_BAD_HANDLE, port := s, removedFromTracker := false,
            observerDestroyed := false }) ∧
    (∀ ob, findObserver s.observers_ handle key = some ob →
      (ob.state ≠ ObsState.NEW →
        IOPortDispatcher.Unbind s handle key
          = { status := NO_ERROR, port := s, removedFromTracker := false,
              observerDestroyed := false }) ∧
      (ob.state = ObsState.NEW →
        IOPortDispatcher.Unbind s handle key
          = { status := NO_ERROR,
              port := { s with observers_ := eraseObserver s.observers_ ob.id },
              removedFromTracker := true, observerDestroyed := true })) := by
  constructor
  · intro h
    simp [IOPortDispatcher.Unbind, h]
  · intro ob h
    constructor
    · intro hst
      simp [IOPortDispatcher.Unbind, h, IOPortObserver.SetState, hst]
    · intro hst
      simp [IOPortDispatcher.Unbind, h, IOPortObserver.SetState, hst]

/-- Claim C9 (witness): the three `Unbind` paths at concrete observer sets —
no match, a match already `CANCELLED`, and a match still `NEW`. -/
theorem C9_unbind_paths_witness :
    (IOPortDispatcher.Unbind ⟨0, false, [], [⟨5, 1, 9, ObsState.NEW, 100⟩], false⟩ 6 9
      = { status := ERR_BAD_HANDLE,
          port := ⟨0, false, [], [⟨5, 1, 9, ObsState.NEW, 100⟩], false⟩,
          removedFromTracker := false, observerDestroyed := false }) ∧
    (IOPortDispatcher.Unbind
        ⟨0, false, [], [⟨5, 1, 9, ObsState.CANCELLED, 100⟩], false⟩ 5 9
      = { status := NO_ERROR,
          port := ⟨0, false, [], [⟨5, 1, 9, ObsState.CANCELLED, 100⟩], false⟩,
          removedFromTracker := false, observerDestroyed := false }) ∧
    (IOPortDispatcher.Unbind ⟨0, false, [], [⟨5, 1, 9, ObsState.NEW, 100⟩], false⟩ 5 9
      = { status := NO_ERROR, port := ⟨0, false, [], [], false⟩,
          removedFromTracker := true, observerDestroyed := true }) := by
  refine ⟨?_, ?_, ?_⟩
  · exact (C9_unbind_paths ⟨0, false, [], [⟨5, 1, 9, ObsState.NEW, 100⟩], false⟩
      6 9).1 (by decide)
  · exact ((C9_unbind_paths ⟨0, false, [], [⟨5, 1, 9, ObsState.CANCELLED, 100⟩],
      false⟩ 5 9).2 ⟨5, 1, 9, ObsState.CANCELLED, 100⟩ (by decide)).1 (by decide)
  · exact ((C9_unbind_paths ⟨0, false, [], [⟨5, 1, 9, ObsState.NEW, 100⟩], false⟩
      5 9).2 ⟨5, 1, 9, ObsState.NEW, 100⟩ (by decide)).2 rfl

/-- Claim C10: when the queue is empty and the wait primitive reports an
error, `Wait` returns that error immediately — for every continuation of
wake outcomes, so no retry consumes them — and without a packet (the
`err` outcome carries none); it re-enters the check-block-recheck loop
only when the wait primitive reports success. -/
theorem C10_wait_error_immediate (s : IOPortDispatcher) (e : Int) (evs : List Int)
    (hemp : s.packets_ = []) :
    (e ≠ NO_ERROR → IOPortDispatcher.Wait s (e :: evs) = WaitResult.err e) ∧
    (e = NO_ERROR →
      IOPortDispatcher.Wait s (e :: evs) = IOPortDispatcher.Wait s evs) := by
  constructor
  · intro h
    unfold IOPortDispatcher.Wait
    rw [hemp]
    simp [waitLoop, h]
  · intro h
    unfold IOPortDispatcher.Wait
    rw [hemp]
    simp [waitLoop, h]

/-- Claim C10 (witness): an aborted wait returns the abort status at once on
a fresh (empty) port, and a successful wake re-enters the loop. -/
theorem C10_wait_error_immediate_witness :
    (IOPortDispatcher.Wait (IOPortDispatcher.initState 0)
        [ERR_INVALID_ARGS, NO_ERROR] = WaitResult.err ERR_INVALID_ARGS) ∧
    (IOPortDispatcher.Wait (IOPortDispatcher.initState 0) [NO_ERROR]
      = IOPortDispatcher.Wait (IOPortDispatcher.initState 0) []) := by
  refine ⟨?_, ?_⟩
  · exact (C10_wait_error_immediate (IOPortDispatcher.initState 0) ERR_INVALID_ARGS
      [NO_ERROR] rfl).1 (by decide)
  · exact (C10_wait_error_immediate (IOPortDispatcher.initState 0) NO_ERROR
      [] rfl).2 rfl

end Magenta
